import Mathlib

/-!
Verification of the fraud-prevention prediction service (`part2.py`).

The service exposes a single `/predict` endpoint.  At startup it tries to
load a serialized PyTorch model; on any load error it logs and stores
`None` instead.  Placeholder normalization parameters `mean = [0,0,0,0]`
and `std = [1,1,1,1]` are set unconditionally.  A predict request builds
the feature vector `[amount, time_of_day, mismatch, frequency]`,
normalizes it elementwise, runs the model to a logit, applies the
sigmoid and thresholds the probability at `0.5`.

Numeric values are embedded as real numbers; the opaque TorchScript
model is an arbitrary function from a 4-vector to a logit.
-/

open Classical

namespace FraudAPI

/-- Request schema `TransactionFeatures` from the source: `amount` is a
float, the other three fields are ints.  Floats are embedded as
rationals here so that schema validation stays decidable; they are cast
to `ℝ` when the feature tensor is built. -/
structure TransactionFeatures where
  amount : ℚ
  time_of_day : ℤ
  mismatch : ℤ
  frequency : ℤ
deriving DecidableEq, Repr

/-- Response schema `PredictionResponse` from the source. -/
structure PredictionResponse where
  probability : ℝ
  is_fraudulent : Bool

/-- The opaque scoring model (`torch.jit.load` result): a callable from a
4-element numeric vector to a raw logit. -/
def ScoringModel : Type := (Fin 4 → ℝ) → ℝ

/-- The mutable application state `app.state` used by the service:
the optional loaded model and the normalization parameter vectors. -/
structure HostState where
  model : Option ScoringModel
  mean : Fin 4 → ℝ
  std : Fin 4 → ℝ

/-- The error raised by `HTTPException(status_code=..., detail=...)`. -/
structure HTTPError where
  status_code : ℕ
  detail : String
deriving DecidableEq, Repr

/-- Outcomes of the `torch.jit.load` call in `lifespan`: success, the
file is missing (`FileNotFoundError`), or any other exception. -/
inductive LoadOutcome where
  | ok (m : ScoringModel)
  | fileNotFound
  | otherError (msg : String)

/-- Placeholder `mean` tensor set by `lifespan`: `torch.tensor([0.0, 0.0, 0.0, 0.0])`. -/
def placeholderMean : Fin 4 → ℝ := ![0, 0, 0, 0]

/-- Placeholder `std` tensor set by `lifespan`: `torch.tensor([1.0, 1.0, 1.0, 1.0])`. -/
def placeholderStd : Fin 4 → ℝ := ![1, 1, 1, 1]

/-- The startup half of `lifespan` (everything before `yield`): the
`try/except` around the model load never lets an exception escape; every
branch produces a state.  Both failure branches print a diagnostic and
set `app.state.model = None`; `mean` and `std` are then assigned their
placeholder values unconditionally.  Returns the resulting state
together with the log lines printed. -/
def lifespanStartup (load : LoadOutcome) : HostState × List String :=
  match load with
  | .ok m =>
      ({ model := some m, mean := placeholderMean, std := placeholderStd },
       ["PyTorch model loaded successfully."])
  | .fileNotFound =>
      ({ model := none, mean := placeholderMean, std := placeholderStd },
       ["Error: Model file fraud_prevention_model.pt not found."])
  | .otherError msg =>
      ({ model := none, mean := placeholderMean, std := placeholderStd },
       ["An error occurred while loading the model: " ++ msg])

/-- The shutdown half of `lifespan` (after `yield`): `app.state.model = None`. -/
def lifespanShutdown (st : HostState) : HostState :=
  { st with model := none }

/-- The feature tensor built by `predict`:
`torch.tensor([[features.amount, features.time_of_day, features.mismatch, features.frequency]])`,
in exactly that fixed field order, all entries cast to floating point. -/
def featureVector (f : TransactionFeatures) : Fin 4 → ℝ :=
  ![(f.amount : ℝ), (f.time_of_day : ℝ), (f.mismatch : ℝ), (f.frequency : ℝ)]

/-- The normalization step `(tensor - app.state.mean) / app.state.std`:
elementwise subtraction and division over the fixed 4-element shape. -/
noncomputable def normalize (v mean std : Fin 4 → ℝ) : Fin 4 → ℝ :=
  fun i => (v i - mean i) / std i

/-- `torch.sigmoid`: the logistic function `1 / (1 + e^(-x))`. -/
noncomputable def sigmoid (x : ℝ) : ℝ :=
  1 / (1 + Real.exp (-x))

/-- The `/predict` handler.  It reads `app.state.model`; if it is `None`
it raises `HTTPException(503, "Model is not loaded.")` before any tensor
is built.  Otherwise it normalizes the feature vector, runs the model,
applies the sigmoid and compares the probability against `0.5`.  The
handler only reads the application state, so the state is returned
alongside the response to make that explicit. -/
noncomputable def predict (st : HostState) (features : TransactionFeatures) :
    Except HTTPError PredictionResponse × HostState :=
  match st.model with
  | none => (.error { status_code := 503, detail := "Model is not loaded." }, st)
  | some model =>
      let tensor := featureVector features
      let n_tensor := normalize tensor st.mean st.std
      let probability := sigmoid (model n_tensor)
      (.ok { probability := probability,
             is_fraudulent := decide (probability > 0.5) }, st)

/-- A value appearing in a JSON request body: a number or a string.
(These two cases suffice for the schema claims considered here.) -/
inductive RawValue where
  | num (q : ℚ)
  | str (s : String)
deriving DecidableEq, Repr

/-- A raw request body: a list of field-name / value pairs. -/
abbrev RawRequest : Type := List (String × RawValue)

/-- First value bound to `name` in the request body, if any. -/
def lookupField (req : RawRequest) (name : String) : Option RawValue :=
  (List.find? (fun p => p.1 == name) req).map Prod.snd

/-- Coercion of a raw value to a float-typed field: numbers are accepted,
strings are not (the spec's example of a wrong-typed value). -/
def asFloat : RawValue → Option ℚ
  | .num q => some q
  | .str _ => none

/-- Coercion of a raw value to an int-typed field: integral numbers are
accepted, fractional numbers and strings are not. -/
def asInt : RawValue → Option ℤ
  | .num q => if q.den = 1 then some q.num else none
  | .str _ => none

/-- Modelled from the spec: the request-body validation that the web
framework performs against the declared `TransactionFeatures` schema
before the handler runs (the validation code itself lives in the
framework, outside this repository).  The schema declaration in the
source lists the four typed fields and sets no extra configuration, so
the framework's default validation applies: each declared field must be
present with a value of the declared type, and any undeclared field in
the body is ignored. -/
def validateRequest (req : RawRequest) : Option TransactionFeatures :=
  ((lookupField req "amount").bind asFloat).bind fun a =>
  ((lookupField req "time_of_day").bind asInt).bind fun t =>
  ((lookupField req "mismatch").bind asInt).bind fun m =>
  ((lookupField req "frequency").bind asInt).bind fun fr =>
  some { amount := a, time_of_day := t, mismatch := m, frequency := fr }

/-- The full request path for `/predict`: the framework validates the
body against the schema; on failure it answers with a client error (422)
and the handler — hence the Model Host — is never reached; on success
the handler `predict` runs. -/
noncomputable def handleRequest (st : HostState) (req : RawRequest) :
    Except HTTPError PredictionResponse × HostState :=
  match validateRequest req with
  | none => (.error { status_code := 422, detail := "validation error" }, st)
  | some features => predict st features

/-! ### Helper lemmas -/

theorem predict_model_none (st : HostState) (f : TransactionFeatures)
    (h : st.model = none) :
    predict st f = (.error { status_code := 503, detail := "Model is not loaded." }, st) := by
  unfold predict
  rw [h]

theorem predict_model_some (st : HostState) (f : TransactionFeatures)
    (m : ScoringModel) (h : st.model = some m) :
    predict st f =
      (.ok { probability := sigmoid (m (normalize (featureVector f) st.mean st.std)),
             is_fraudulent :=
               decide (sigmoid (m (normalize (featureVector f) st.mean st.std)) > 0.5) },
       st) := by
  unfold predict
  rw [h]

theorem predict_snd_eq (st : HostState) (f : TransactionFeatures) :
    (predict st f).2 = st := by
  cases h : st.model with
  | none => rw [predict_model_none st f h]
  | some m => rw [predict_model_some st f m h]

theorem sigmoid_pos (x : ℝ) : 0 < sigmoid x := by
  unfold sigmoid
  positivity

theorem sigmoid_lt_one (x : ℝ) : sigmoid x < 1 := by
  have hx := Real.exp_pos (-x)
  rw [sigmoid, div_lt_one (by linarith)]
  linarith

theorem placeholderStd_ne_zero (i : Fin 4) : placeholderStd i ≠ 0 := by
  fin_cases i <;> norm_num [placeholderStd]

/-! ### Concrete fixtures used by witnesses -/

/-- A fixed stub model with logit constantly `0` (so `sigmoid` gives
exactly the threshold probability `1/2`). -/
def testModel : ScoringModel := fun _ => 0

def testState : HostState :=
  { model := some testModel, mean := placeholderMean, std := placeholderStd }

/-- A second, separately constructed state with the same contents as
`testState`. -/
def testState2 : HostState :=
  { model := some testModel, mean := placeholderMean, std := placeholderStd }

/-- The spec's example input. -/
def testFeatures : TransactionFeatures :=
  { amount := 500, time_of_day := 14, mismatch := 1, frequency := 3 }

/-- The spec's example input as a raw request body. -/
def goodRequest : RawRequest :=
  [("amount", .num 500), ("time_of_day", .num 14),
   ("mismatch", .num 1), ("frequency", .num 3)]

/-- The same body with an undeclared extra field appended. -/
def requestWithExtra : RawRequest :=
  goodRequest ++ [("extra_field", .num 7)]

/-! ### Claims -/

/-- C1: whenever the host state has no model (`model is None`), `predict`
fails with HTTP 503 and detail "Model is not loaded.", leaving the state
unchanged and performing no scoring, tensor construction or
normalization (the error branch is taken before any of them); this holds
for every such call, not only the first. -/
theorem predict_absent_model_503 (st : HostState) (f : TransactionFeatures)
    (h : st.model = none) :
    predict st f =
      (.error { status_code := 503, detail := "Model is not loaded." }, st) :=
  predict_model_none st f h

/-- Witness for C1 at a state produced by a failed startup. -/
theorem predict_absent_model_503_witness :
    (lifespanStartup LoadOutcome.fileNotFound).1.model = none ∧
    predict (lifespanStartup LoadOutcome.fileNotFound).1 testFeatures =
      (.error { status_code := 503, detail := "Model is not loaded." },
       (lifespanStartup LoadOutcome.fileNotFound).1) :=
  ⟨rfl, predict_absent_model_503 (lifespanStartup LoadOutcome.fileNotFound).1 testFeatures rfl⟩

/-- C2: with a loaded model, `predict` answers with probability
`sigmoid (model (normalize [amount, time_of_day, mismatch, frequency]))`,
the 4-vector built in exactly that fixed field order, and `normalize`
being the elementwise map `(value - mean i) / std i` over the host
state's parameters. -/
theorem predict_probability_formula (st : HostState) (f : TransactionFeatures)
    (m : ScoringModel) (h : st.model = some m) :
    ∃ resp : PredictionResponse,
      (predict st f).1 = Except.ok resp ∧
      resp.probability =
        sigmoid (m (normalize
          ![(f.amount : ℝ), (f.time_of_day : ℝ), (f.mismatch : ℝ), (f.frequency : ℝ)]
          st.mean st.std)) ∧
      (∀ i : Fin 4,
        normalize ![(f.amount : ℝ), (f.time_of_day : ℝ), (f.mismatch : ℝ), (f.frequency : ℝ)]
            st.mean st.std i =
          ((![(f.amount : ℝ), (f.time_of_day : ℝ), (f.mismatch : ℝ), (f.frequency : ℝ)] i)
              - st.mean i) / st.std i) := by
  refine ⟨{ probability := sigmoid (m (normalize (featureVector f) st.mean st.std)),
            is_fraudulent :=
              decide (sigmoid (m (normalize (featureVector f) st.mean st.std)) > 0.5) },
          ?_, rfl, fun i => rfl⟩
  rw [predict_model_some st f m h]

/-- Witness for C2 at the spec's example input and the stub model. -/
theorem predict_probability_formula_witness :
    testState.model = some testModel ∧
    ∃ resp : PredictionResponse,
      (predict testState testFeatures).1 = Except.ok resp ∧
      resp.probability =
        sigmoid (testModel (normalize
          ![(testFeatures.amount : ℝ), (testFeatures.time_of_day : ℝ),
            (testFeatures.mismatch : ℝ), (testFeatures.frequency : ℝ)]
          testState.mean testState.std)) ∧
      (∀ i : Fin 4,
        normalize ![(testFeatures.amount : ℝ), (testFeatures.time_of_day : ℝ),
            (testFeatures.mismatch : ℝ), (testFeatures.frequency : ℝ)]
            testState.mean testState.std i =
          ((![(testFeatures.amount : ℝ), (testFeatures.time_of_day : ℝ),
            (testFeatures.mismatch : ℝ), (testFeatures.frequency : ℝ)] i)
              - testState.mean i) / testState.std i) :=
  ⟨rfl, predict_probability_formula testState testFeatures testModel rfl⟩

/-- C3: a successful response satisfies
`is_fraudulent = true ↔ probability > 0.5` with the fixed constant
threshold `0.5` and a strict inequality; in particular a probability of
exactly `0.5` gives `is_fraudulent = false`. -/
theorem predict_threshold_decision (st : HostState) (f : TransactionFeatures)
    (resp : PredictionResponse) (st2 : HostState)
    (h : predict st f = (Except.ok resp, st2)) :
    (resp.is_fraudulent = true ↔ resp.probability > 0.5) ∧
    (resp.probability = 0.5 → resp.is_fraudulent = false) := by
  cases hm : st.model with
  | none =>
      rw [predict_model_none st f hm] at h
      simp at h
  | some m =>
      rw [predict_model_some st f m hm] at h
      simp only [Prod.mk.injEq, Except.ok.injEq] at h
      obtain ⟨hresp, -⟩ := h
      subst hresp
      constructor
      · simp
      · intro hp
        simp only [PredictionResponse.is_fraudulent] at hp ⊢
        simp only [hp] at *
        simp [hp]

/-- Witness for C3; the stub model yields probability exactly
`sigmoid 0 = 1/2`, exercising the boundary case. -/
theorem predict_threshold_decision_witness :
    ∃ (resp : PredictionResponse) (st2 : HostState),
      predict testState testFeatures = (Except.ok resp, st2) ∧
      (resp.is_fraudulent = true ↔ resp.probability > 0.5) ∧
      (resp.probability = 0.5 → resp.is_fraudulent = false) :=
  ⟨_, _, predict_model_some testState testFeatures testModel rfl,
    predict_threshold_decision testState testFeatures _ _
      (predict_model_some testState testFeatures testModel rfl)⟩

/-- C4: every probability returned by a successful `predict` lies
strictly between 0 and 1, because the sigmoid maps every real logit
into the open unit interval. -/
theorem predict_probability_open_unit (st : HostState) (f : TransactionFeatures)
    (resp : PredictionResponse) (st2 : HostState)
    (h : predict st f = (Except.ok resp, st2)) :
    0 < resp.probability ∧ resp.probability < 1 := by
  cases hm : st.model with
  | none =>
      rw [predict_model_none st f hm] at h
      simp at h
  | some m =>
      rw [predict_model_some st f m hm] at h
      simp only [Prod.mk.injEq, Except.ok.injEq] at h
      obtain ⟨hresp, -⟩ := h
      subst hresp
      exact ⟨sigmoid_pos _, sigmoid_lt_one _⟩

/-- Witness for C4 at the spec's example input and the stub model. -/
theorem predict_probability_open_unit_witness :
    ∃ (resp : PredictionResponse) (st2 : HostState),
      predict testState testFeatures = (Except.ok resp, st2) ∧
      0 < resp.probability ∧ resp.probability < 1 :=
  ⟨_, _, predict_model_some testState testFeatures testModel rfl,
    predict_probability_open_unit testState testFeatures _ _
      (predict_model_some testState testFeatures testModel rfl)⟩

/-- C5: whatever way the model load fails — file missing or any other
load error — startup catches the error, logs a diagnostic, sets the
model state to absent, and still produces a running state (the function
is total, so nothing propagates out of startup; the service starts with
the placeholder parameters in place and can answer requests). -/
theorem lifespan_startup_degrades_on_failure (msg : String) :
    (lifespanStartup LoadOutcome.fileNotFound).1.model = none ∧
    (lifespanStartup (LoadOutcome.otherError msg)).1.model = none ∧
    (lifespanStartup LoadOutcome.fileNotFound).2 ≠ [] ∧
    (lifespanStartup (LoadOutcome.otherError msg)).2 ≠ [] ∧
    (lifespanStartup LoadOutcome.fileNotFound).1.mean = placeholderMean ∧
    (lifespanStartup LoadOutcome.fileNotFound).1.std = placeholderStd ∧
    (lifespanStartup (LoadOutcome.otherError msg)).1.mean = placeholderMean ∧
    (lifespanStartup (LoadOutcome.otherError msg)).1.std = placeholderStd := by
  refine ⟨rfl, rfl, ?_, ?_, rfl, rfl, rfl, rfl⟩ <;> simp [lifespanStartup]

/-- C7: with the placeholder parameters `mean = [0,0,0,0]` and
`std = [1,1,1,1]`, normalization is the identity on every input
vector. -/
theorem normalize_placeholder_identity (v : Fin 4 → ℝ) :
    normalize v placeholderMean placeholderStd = v := by
  funext i
  fin_cases i <;> simp [normalize, placeholderMean, placeholderStd]

/-- C8: `predict` is deterministic — two calls with the same features
against states agreeing on the model and the normalization parameters
return identical responses (hence identical probability and decision);
the embedding of the handler is a pure function, with no other input. -/
theorem predict_deterministic (st1 st2 : HostState) (f : TransactionFeatures)
    (hm : st1.model = st2.model) (hmean : st1.mean = st2.mean)
    (hstd : st1.std = st2.std) :
    (predict st1 f).1 = (predict st2 f).1 := by
  cases st1
  cases st2
  cases hm
  cases hmean
  cases hstd
  rfl

/-- Witness for C8 on two separately constructed equal states. -/
theorem predict_deterministic_witness :
    (predict testState testFeatures).1 = (predict testState2 testFeatures).1 :=
  predict_deterministic testState testState2 testFeatures rfl rfl rfl

/-- C9: `predict` never mutates the host state: on the success path and
the 503 path alike, the state after the call equals the state before. -/
theorem predict_reads_only (st : HostState) (f : TransactionFeatures) :
    (predict st f).2 = st :=
  predict_snd_eq st f

/-- The states of the service reachable through its lifecycle: a startup
with any load outcome, followed by any number of predict calls and
shutdowns. -/
inductive Reachable : HostState → Prop where
  | startup (load : LoadOutcome) : Reachable (lifespanStartup load).1
  | predictStep (st : HostState) (f : TransactionFeatures) :
      Reachable st → Reachable (predict st f).2
  | shutdownStep (st : HostState) : Reachable st → Reachable (lifespanShutdown st)

/-- C10: in every reachable state — after a successful or a failed
startup, after any predict calls and after shutdown — the normalization
parameters hold their placeholder values and every component of `std`
is non-zero, so the elementwise division in `normalize` never divides
by zero. -/
theorem reachable_std_nonzero (st : HostState) (h : Reachable st) :
    st.std = placeholderStd ∧ st.mean = placeholderMean ∧
    ∀ i : Fin 4, st.std i ≠ 0 := by
  induction h with
  | startup load =>
      cases load <;> exact ⟨rfl, rfl, placeholderStd_ne_zero⟩
  | predictStep st f h ih =>
      rw [predict_snd_eq]
      exact ih
  | shutdownStep st h ih =>
      exact ih

/-- Witness for C10 at the state left by a failed startup. -/
theorem reachable_std_nonzero_witness :
    (lifespanStartup LoadOutcome.fileNotFound).1.std = placeholderStd ∧
    (lifespanStartup LoadOutcome.fileNotFound).1.std 0 ≠ 0 :=
  ⟨(reachable_std_nonzero _ (Reachable.startup LoadOutcome.fileNotFound)).1,
   (reachable_std_nonzero _ (Reachable.startup LoadOutcome.fileNotFound)).2.2 0⟩

theorem lookupField_cons_ne (name : String) (v : RawValue) (req : RawRequest)
    (n : String) (h : name ≠ n) :
    lookupField ((name, v) :: req) n = lookupField req n := by
  unfold lookupField
  rw [List.find?_cons_of_neg]
  simp [h]

/-- C6 counterexample: the declared schema carries no strictness
configuration, so a body with all four fields well-typed plus an
undeclared `extra_field` validates successfully — the extra field is
silently ignored, not rejected. -/
theorem validateRequest_accepts_extra_field :
    validateRequest requestWithExtra =
      some { amount := 500, time_of_day := 14, mismatch := 1, frequency := 3 } ∧
    validateRequest requestWithExtra = validateRequest goodRequest :=
  ⟨rfl, rfl⟩

/-- C6 (amended): every request body is validated against the declared
schema before reaching the Model Host — all four fields are required
with the declared types, a body missing any field or binding `amount`
to a string is rejected, and a rejected body answers with a client
error (422) without the handler — hence any scoring — ever running;
undeclared extra fields, however, are silently ignored rather than
rejected. -/
theorem validateRequest_schema_behavior :
    (∀ req : RawRequest, lookupField req "amount" = none →
        validateRequest req = none) ∧
    (∀ req : RawRequest, lookupField req "time_of_day" = none →
        validateRequest req = none) ∧
    (∀ req : RawRequest, lookupField req "mismatch" = none →
        validateRequest req = none) ∧
    (∀ req : RawRequest, lookupField req "frequency" = none →
        validateRequest req = none) ∧
    (∀ (req : RawRequest) (s : String), lookupField req "amount" = some (.str s) →
        validateRequest req = none) ∧
    (∀ (st : HostState) (req : RawRequest), validateRequest req = none →
        handleRequest st req =
          (.error { status_code := 422, detail := "validation error" }, st)) ∧
    (∀ (name : String) (v : RawValue) (req : RawRequest),
        name ≠ "amount" → name ≠ "time_of_day" → name ≠ "mismatch" →
        name ≠ "frequency" →
        validateRequest ((name, v) :: req) = validateRequest req) := by
  refine ⟨?_, ?_, ?_, ?_, ?_, ?_, ?_⟩
  · intro req h
    simp [validateRequest, h]
  · intro req h
    cases ha : (lookupField req "amount").bind asFloat <;>
      simp [validateRequest, ha, h]
  · intro req h
    cases ha : (lookupField req "amount").bind asFloat <;>
      cases ht : (lookupField req "time_of_day").bind asInt <;>
        simp [validateRequest, ha, ht, h]
  · intro req h
    cases ha : (lookupField req "amount").bind asFloat <;>
      cases ht : (lookupField req "time_of_day").bind asInt <;>
        cases hm2 : (lookupField req "mismatch").bind asInt <;>
          simp [validateRequest, ha, ht, hm2, h]
  · intro req s h
    simp [validateRequest, h, asFloat]
  · intro st req h
    unfold handleRequest
    rw [h]
  · intro name v req h1 h2 h3 h4
    unfold validateRequest
    rw [lookupField_cons_ne name v req _ h1, lookupField_cons_ne name v req _ h2,
        lookupField_cons_ne name v req _ h3, lookupField_cons_ne name v req _ h4]

/-- Witness for the amended C6: appending an undeclared field to the
spec's example body leaves validation unchanged. -/
theorem validateRequest_schema_behavior_witness :
    validateRequest (("extra_field", RawValue.num 7) :: goodRequest) =
      validateRequest goodRequest :=
  validateRequest_schema_behavior.2.2.2.2.2.2 "extra_field" (RawValue.num 7)
    goodRequest (by decide) (by decide) (by decide) (by decide)

end FraudAPI
